import Mathlib

/-!
Shallow embedding of the carpooling application's booking-coordination core.

The persistent data model and all write operations are translated from the
repository's Supabase schema (migration
`20250821090052_725e6554-90f0-404e-ad3b-a3063287862a.sql` and the later
migrations), its database trigger functions (`handle_new_ride_request`,
`handle_ride_request_status_update`, `update_user_rating`), and the
client-side mutation functions (`SearchRides.handleRequestRide`,
`NotificationCenter.handleRideRequest`, `NotificationCenter.markAsRead`,
`MyBookings.updateBookingStatus`, `MyRides.updateRideStatus`,
`FindDrivers.updateAvailabilityStatus`, and the ride-creation form).

Modelling conventions:
* ids and timestamps are `Nat`; `DECIMAL` columns are `ℚ`; `TEXT` status and
  notification-type columns are `String` (the schema stores them as TEXT with
  CHECK constraints, which we embed as explicit membership checks);
* each write operation returns `Except DBError DB`; a Postgres error anywhere
  inside the statement (including inside an AFTER trigger) aborts the whole
  transaction, which the embedding reflects by returning `.error` and leaving
  the caller with the unchanged input state;
* error classification follows the spec's taxonomy (§7): a CHECK constraint
  on caller-supplied input maps to `validationError`; a UNIQUE violation maps
  to `conflictError`; a missing referenced row maps to `notFoundError`; a row
  that exists but is filtered away (or rejected) by a row-level-security
  policy maps to `authorizationError`.  The CHECK constraint on
  `notifications.type` is violated only by the repository's own trigger code,
  never by caller input, so it gets its own constructor `checkViolation`.
-/

/-- A row of `public.profiles` (including the presence columns added by
migration `20250827084120`).  `total_rating` is the `DECIMAL(3,2)` reputation
average and `rating_count` the review count. -/
structure Profile where
  user_id : Nat
  username : String
  total_rating : ℚ
  rating_count : Nat
  availability_status : String
  last_seen : Nat
  deriving Repr, DecidableEq

/-- A row of `public.rides`.  The geo columns are omitted: no operation or
claim reads or writes them. -/
structure Ride where
  id : Nat
  driver_id : Nat
  origin : String
  destination : String
  departure_date : String
  departure_time : String
  available_seats : Int
  price_per_seat : ℚ
  car_details : Option String
  status : String
  created_at : Nat
  updated_at : Nat
  deriving Repr, DecidableEq

/-- A row of `public.ride_requests` (a BookingRequest). -/
structure RideRequest where
  id : Nat
  ride_id : Nat
  passenger_id : Nat
  number_of_passengers : Int
  pickup_location : Option String
  message : Option String
  status : String
  created_at : Nat
  updated_at : Nat
  deriving Repr, DecidableEq

/-- A row of `public.ratings`. -/
structure Rating where
  id : Nat
  ride_id : Nat
  rater_id : Nat
  rated_user_id : Nat
  rating : Nat
  comment : Option String
  created_at : Nat
  deriving Repr, DecidableEq

/-- A row of `public.notifications`. -/
structure Notification where
  id : Nat
  user_id : Nat
  title : String
  message : String
  type : String
  ride_id : Option Nat
  is_read : Bool
  created_at : Nat
  deriving Repr, DecidableEq

/-- The relational store: one list per table, plus a counter standing in for
`gen_random_uuid()` id generation. -/
structure DB where
  profiles : List Profile
  rides : List Ride
  ride_requests : List RideRequest
  ratings : List Rating
  notifications : List Notification
  nextId : Nat
  deriving Repr, DecidableEq

/-- The empty store. -/
def initDB : DB := ⟨[], [], [], [], [], 0⟩

/-- Error taxonomy of spec §7 plus `checkViolation` for the CHECK constraint
on `notifications.type`, which only the repository's own trigger code can
violate (no spec category covers it). -/
inductive DBError where
  | validationError
  | authorizationError
  | conflictError
  | notFoundError
  | checkViolation
  deriving Repr, DecidableEq

/-- Look up a ride by primary key. -/
def findRide (db : DB) (rideId : Nat) : Option Ride :=
  db.rides.find? (fun r => r.id == rideId)

/-- Look up a ride request by primary key. -/
def findRequest (db : DB) (requestId : Nat) : Option RideRequest :=
  db.ride_requests.find? (fun q => q.id == requestId)

/-- Look up a notification by primary key. -/
def findNotification (db : DB) (notificationId : Nat) : Option Notification :=
  db.notifications.find? (fun n => n.id == notificationId)

/-- The value list of the CHECK constraint on `notifications.type` in
migration `20250821090052`. -/
def allowedNotificationTypes : List String :=
  ["ride_request", "request_accepted", "request_rejected", "ride_started",
   "ride_completed", "new_message"]

/-- The value list of the CHECK constraint on `ride_requests.status`. -/
def requestStatuses : List String :=
  ["pending", "accepted", "rejected", "cancelled"]

/-- The value list of the CHECK constraint on `rides.status`. -/
def rideStatuses : List String :=
  ["active", "completed", "cancelled"]

/-- The value list of the CHECK constraint on `profiles.availability_status`
added by migration `20250827084120`. -/
def availabilityStatuses : List String :=
  ["online", "offline", "busy"]

/-- An `INSERT INTO notifications` statement: the row is stored only if the
type passes the table's CHECK constraint, otherwise the statement (and with
it the surrounding transaction) fails. -/
def insertNotification (db : DB) (userId : Nat) (title msg ty : String)
    (rideId : Option Nat) (now : Nat) : Except DBError DB :=
  if allowedNotificationTypes.contains ty then
    .ok { db with
            notifications :=
              db.notifications ++ [⟨db.nextId, userId, title, msg, ty, rideId, false, now⟩],
            nextId := db.nextId + 1 }
  else
    .error .checkViolation

/-- Trigger function `public.handle_new_ride_request` (AFTER INSERT ON
ride_requests): notifies the driver of the referenced ride with a
notification of type `ride_request`. -/
def handle_new_ride_request (db : DB) (req : RideRequest) (now : Nat) :
    Except DBError DB :=
  match findRide db req.ride_id with
  | some r =>
      insertNotification db r.driver_id "New Ride Request"
        ("You have a new ride request from " ++ r.origin ++ " to " ++
          r.destination ++ " on " ++ r.departure_date)
        "ride_request" (some req.ride_id) now
  | none => .error .notFoundError

/-- Client operation `SearchRides.handleRequestRide` (the same insert is made
by `TestBookingFlow.handleTestBooking`): inserts a `ride_requests` row with
`passenger_id` set to the calling user and status `pending`.  The client
performs no checks of its own; the embedded checks are exactly the table's
constraints — `CHECK (number_of_passengers > 0)`, `UNIQUE (ride_id,
passenger_id)` and the foreign key on `ride_id` — followed by the AFTER
INSERT trigger.  The RLS insert policy (`auth.uid() = passenger_id`) is
satisfied by construction because the client always inserts its own user id
as `passenger_id`.  Note: no check of the ride's status or of its
`available_seats` appears anywhere on this path. -/
def handleRequestRide (db : DB) (user rideId : Nat)
    (numberOfPassengers : Int) (now : Nat) : Except DBError DB :=
  if numberOfPassengers ≤ 0 then
    .error .validationError
  else if db.ride_requests.any
      (fun q => q.ride_id == rideId && q.passenger_id == user) then
    .error .conflictError
  else
    match findRide db rideId with
    | none => .error .notFoundError
    | some _ =>
        let req : RideRequest :=
          ⟨db.nextId, rideId, user, numberOfPassengers, none, none, "pending", now, now⟩
        handle_new_ride_request
          { db with ride_requests := db.ride_requests ++ [req],
                    nextId := db.nextId + 1 }
          req now

/-- Does the RLS policy `Drivers can update requests for their rides` admit
this user: is the user the driver of the given ride? -/
def isDriverOf (db : DB) (user rideId : Nat) : Bool :=
  match findRide db rideId with
  | some r => r.driver_id == user
  | none => false

/-- Message text built by `handle_ride_request_status_update` for the
passenger. -/
def statusChangeMsg (db : DB) (rideId : Nat) (verb : String) : String :=
  match findRide db rideId with
  | some r =>
      "Your ride request from " ++ r.origin ++ " to " ++ r.destination ++
        " has been " ++ verb
  | none => ""

/-- Client operation `MyBookings.updateBookingStatus` — an
`UPDATE ride_requests SET status = $2 WHERE id = $1` as the acting user.
`NotificationCenter.handleRideRequest` performs the identical statement with
the status restricted to accepted/rejected.  Embedded behaviour:
* a missing row is `notFoundError`;
* the row is reachable under the update policies iff the acting user is the
  request's passenger (`Passengers can update their own requests`) or the
  driver of the referenced ride (`Drivers can update requests for their
  rides`); otherwise the update touches nothing, surfaced per spec §7 as
  `authorizationError`;
* the status value must pass the CHECK constraint;
* the BEFORE trigger `update_ride_requests_updated_at` stamps `updated_at`;
* the AFTER trigger `handle_ride_request_status_update` fires when the status
  changed: on `accepted` it inserts a notification of type
  `ride_request_accepted` for the passenger, on `rejected` one of type
  `ride_request_rejected`; a failure of that insert aborts the whole update.
No check of the previous status, of the listing's status, or of capacity is
performed anywhere. -/
def updateBookingStatus (db : DB) (user requestId : Nat) (newStatus : String)
    (now : Nat) : Except DBError DB :=
  match findRequest db requestId with
  | none => .error .notFoundError
  | some q =>
      if user == q.passenger_id || isDriverOf db user q.ride_id then
        if requestStatuses.contains newStatus then
          let db1 : DB :=
            { db with ride_requests :=
                db.ride_requests.map (fun p =>
                  if p.id == requestId then
                    { p with status := newStatus, updated_at := now }
                  else p) }
          if newStatus != q.status then
            if newStatus == "accepted" then
              insertNotification db1 q.passenger_id "Ride Request Accepted!"
                (statusChangeMsg db q.ride_id "accepted")
                "ride_request_accepted" (some q.ride_id) now
            else if newStatus == "rejected" then
              insertNotification db1 q.passenger_id "Ride Request Declined"
                (statusChangeMsg db q.ride_id "declined")
                "ride_request_rejected" (some q.ride_id) now
            else .ok db1
          else .ok db1
        else .error .validationError
      else .error .authorizationError

/-- Client operation `NotificationCenter.handleRideRequest`: the driver-side
accept/decline buttons, same update statement as `updateBookingStatus`. -/
def handleRideRequest (db : DB) (user requestId : Nat) (action : String)
    (now : Nat) : Except DBError DB :=
  updateBookingStatus db user requestId action now

/-- Client operation `MyRides.updateRideStatus` — an `UPDATE rides SET status
= $2 WHERE id = $1` as the acting user.  The only authorization is the RLS
policy `Drivers can manage their own rides` (`auth.uid() = driver_id`); the
status value must pass the CHECK constraint; `update_rides_updated_at` stamps
`updated_at`; the AFTER trigger `handle_ride_completion` only logs and has no
state effect.  No check of the previous status is performed. -/
def updateRideStatus (db : DB) (user rideId : Nat) (newStatus : String)
    (now : Nat) : Except DBError DB :=
  match findRide db rideId with
  | none => .error .notFoundError
  | some r =>
      if r.driver_id == user then
        if rideStatuses.contains newStatus then
          .ok { db with rides :=
                  db.rides.map (fun x =>
                    if x.id == rideId then
                      { x with status := newStatus, updated_at := now }
                    else x) }
        else .error .validationError
      else .error .authorizationError

/-- Client operation `NotificationCenter.markAsRead` — an `UPDATE
notifications SET is_read = true WHERE id = $1` as the acting user; the RLS
policy `Users can update their own notifications` (`auth.uid() = user_id`)
confines the effect to the recipient's own rows. -/
def markAsRead (db : DB) (user notificationId : Nat) : Except DBError DB :=
  match findNotification db notificationId with
  | none => .error .notFoundError
  | some n =>
      if n.user_id == user then
        .ok { db with notifications :=
                db.notifications.map (fun m =>
                  if m.id == notificationId then { m with is_read := true }
                  else m) }
      else .error .authorizationError

/-- All stored ratings whose `rated_user_id` is the given user. -/
def ratingsFor (db : DB) (ratedUserId : Nat) : List Rating :=
  db.ratings.filter (fun t => t.rated_user_id == ratedUserId)

/-- Rounding to two decimal places, half away from zero on non-negative
values: the effect of storing a numeric average into the `DECIMAL(3,2)`
column `profiles.total_rating`. -/
def round2 (q : ℚ) : ℚ := ((⌊q * 100 + 1 / 2⌋ : ℤ) : ℚ) / 100

/-- `COALESCE(AVG(rating), 0)` over the ratings of one user, as stored into
`DECIMAL(3,2)`. -/
def avgRating (db : DB) (ratedUserId : Nat) : ℚ :=
  if (ratingsFor db ratedUserId).length = 0 then 0
  else round2 ((((ratingsFor db ratedUserId).map (fun t => (t.rating : ℚ))).sum) /
    ((ratingsFor db ratedUserId).length : ℚ))

/-- Trigger function `public.update_user_rating` (AFTER INSERT ON ratings):
recomputes `total_rating` and `rating_count` on the rated user's profile row
from the full rating set. -/
def update_user_rating (db : DB) (ratedUserId : Nat) : DB :=
  { db with profiles :=
      db.profiles.map (fun p =>
        if p.user_id == ratedUserId then
          { p with total_rating := avgRating db ratedUserId,
                   rating_count := (ratingsFor db ratedUserId).length }
        else p) }

/-- The RLS insert policy on ratings: the referenced ride is completed and
the rater is its driver or one of its accepted passengers. -/
def canRate (db : DB) (rater rideId : Nat) : Bool :=
  match findRide db rideId with
  | some r =>
      r.status == "completed" &&
        (r.driver_id == rater ||
          db.ride_requests.any (fun q =>
            q.ride_id == rideId && q.passenger_id == rater &&
              q.status == "accepted"))
  | none => false

/-- An `INSERT INTO ratings` as the acting user (the rater), embedding the
`CHECK (rating >= 1 AND rating <= 5)` constraint, the UNIQUE constraint on
`(ride_id, rater_id, rated_user_id)`, the RLS insert policy, and the AFTER
INSERT trigger `update_user_rating`. -/
def submitRating (db : DB) (user rideId ratedUserId : Nat) (score : Nat)
    (comment : Option String) (now : Nat) : Except DBError DB :=
  if score < 1 || 5 < score then
    .error .validationError
  else if db.ratings.any (fun t =>
      t.ride_id == rideId && t.rater_id == user &&
        t.rated_user_id == ratedUserId) then
    .error .conflictError
  else if canRate db user rideId then
    .ok (update_user_rating
          { db with
              ratings := db.ratings ++
                [⟨db.nextId, rideId, user, ratedUserId, score, comment, now⟩],
              nextId := db.nextId + 1 }
          ratedUserId)
  else .error .authorizationError

/-- The ride-creation form's insert into `rides`, embedding the CHECK
constraints `available_seats > 0` and `price_per_seat >= 0`; the new listing
starts in status `active` (the column default). -/
def createRide (db : DB) (user : Nat) (origin destination date time : String)
    (seats : Int) (price : ℚ) (car : Option String) (now : Nat) :
    Except DBError DB :=
  if seats ≤ 0 || price < 0 then
    .error .validationError
  else
    .ok { db with
            rides := db.rides ++
              [⟨db.nextId, user, origin, destination, date, time, seats,
                price, car, "active", now, now⟩],
            nextId := db.nextId + 1 }

/-- Client operation `FindDrivers.updateAvailabilityStatus`: overwrites the
caller's own presence fields (RLS: `auth.uid() = user_id`). -/
def updateAvailabilityStatus (db : DB) (user : Nat) (status : String)
    (now : Nat) : Except DBError DB :=
  if availabilityStatuses.contains status then
    .ok { db with profiles :=
            db.profiles.map (fun p =>
              if p.user_id == user then
                { p with availability_status := status, last_seen := now }
              else p) }
  else .error .validationError

/-- One successful write operation of the system, any arguments. -/
inductive Step : DB → DB → Prop where
  | createRequest (db : DB) (u r : Nat) (n : Int) (now : Nat) (db' : DB) :
      handleRequestRide db u r n now = .ok db' → Step db db'
  | bookingStatus (db : DB) (u q : Nat) (st : String) (now : Nat) (db' : DB) :
      updateBookingStatus db u q st now = .ok db' → Step db db'
  | rideStatus (db : DB) (u r : Nat) (st : String) (now : Nat) (db' : DB) :
      updateRideStatus db u r st now = .ok db' → Step db db'
  | markRead (db : DB) (u n : Nat) (db' : DB) :
      markAsRead db u n = .ok db' → Step db db'
  | rate (db : DB) (u r ru s : Nat) (c : Option String) (now : Nat) (db' : DB) :
      submitRating db u r ru s c now = .ok db' → Step db db'
  | newRide (db : DB) (u : Nat) (o d dt tm : String) (s : Int) (p : ℚ)
      (c : Option String) (now : Nat) (db' : DB) :
      createRide db u o d dt tm s p c now = .ok db' → Step db db'
  | presence (db : DB) (u : Nat) (st : String) (now : Nat) (db' : DB) :
      updateAvailabilityStatus db u st now = .ok db' → Step db db'

/-- States reachable from the empty store by the system's operations. -/
def Reachable (db : DB) : Prop := Relation.ReflTransGen Step initDB db

/-- At most one booking request per (ride, passenger) pair. -/
def pairUnique (db : DB) : Prop :=
  db.ride_requests.Pairwise
    (fun a b => a.ride_id ≠ b.ride_id ∨ a.passenger_id ≠ b.passenger_id)

/-- The seat inventory of every listing, in storage order. -/
def seatsView (db : DB) : List (Nat × Int) :=
  db.rides.map (fun r => (r.id, r.available_seats))

/-- Fixture: two users (driver 1, passenger 2), one ride owned by user 1 with
2 seats, one booking request by passenger 2, one notification addressed to
user 2; ride and request statuses are parameters. -/
def sampleDB (rideStatus reqStatus : String) : DB :=
  { profiles := [⟨1, "driver", 0, 0, "offline", 0⟩, ⟨2, "alice", 0, 0, "offline", 0⟩],
    rides := [⟨1, 1, "A", "B", "2025-01-01", "08:00", 2, 10, none, rideStatus, 0, 0⟩],
    ride_requests := [⟨10, 1, 2, 1, none, none, reqStatus, 0, 0⟩],
    ratings := [],
    notifications := [⟨20, 2, "t", "m", "ride_request", some 1, false, 0⟩],
    nextId := 30 }

/-- Fixture for the rating scenarios: user 50 drove completed ride 1 with
accepted passengers 2, 3 and 4. -/
def ratingDB : DB :=
  { profiles := [⟨50, "u", 0, 0, "offline", 0⟩],
    rides := [⟨1, 50, "A", "B", "d", "t", 2, 10, none, "completed", 0, 0⟩],
    ride_requests := [⟨10, 1, 2, 1, none, none, "accepted", 0, 0⟩,
                      ⟨11, 1, 3, 1, none, none, "accepted", 0, 0⟩,
                      ⟨12, 1, 4, 1, none, none, "accepted", 0, 0⟩],
    ratings := [], notifications := [], nextId := 100 }

/-- State after passenger 2 rates user 50 with score 5. -/
def ratingDB1 : DB := ((submitRating ratingDB 2 1 50 5 none 1).toOption).getD initDB

/-- State after passenger 3 additionally rates user 50 with score 4. -/
def ratingDB2 : DB := ((submitRating ratingDB1 3 1 50 4 none 2).toOption).getD initDB

/-- State after passenger 4 additionally rates user 50 with score 3
(the spec's 5, 4, 3 scenario). -/
def ratingDB3 : DB := ((submitRating ratingDB2 4 1 50 3 none 3).toOption).getD initDB

/-- State after passenger 3 rates user 50 with a second 5 (rounding
counterexample chain: scores 5, 5, then 4). -/
def ratingDBr2 : DB := ((submitRating ratingDB1 3 1 50 5 none 2).toOption).getD initDB

/-- State after passenger 4 additionally rates user 50 with score 4:
the stored average of 5, 5, 4 exposes the `DECIMAL(3,2)` rounding. -/
def ratingDBr3 : DB := ((submitRating ratingDBr2 4 1 50 4 none 3).toOption).getD initDB

/-- State after passenger 2 moves their cancelled request 10 back to
`pending` — the update goes through because no state-machine guard exists. -/
def reopenedDB : DB :=
  ((updateBookingStatus (sampleDB "active" "cancelled") 2 10 "pending" 5).toOption).getD initDB

/-- State after driver 1 sets their completed ride 1 back to `active` — the
update goes through because only ownership is checked. -/
def reopenRideDB : DB :=
  ((updateRideStatus (sampleDB "completed" "pending") 1 1 "active" 5).toOption).getD initDB

/-- State after recipient 2 marks notification 20 as read. -/
def markReadDB : DB :=
  ((markAsRead (sampleDB "active" "pending") 2 20).toOption).getD initDB

/-- State after user 3 successfully requests a seat on ride 1 (used to show
the second request by the same passenger for the same ride then fails). -/
def requestedDB : DB :=
  ((handleRequestRide (sampleDB "active" "pending") 3 1 1 7).toOption).getD initDB

theorem insertNotification_ok_shape {db : DB} {u : Nat} {t m ty : String}
    {rid : Option Nat} {now : Nat} {db' : DB}
    (h : insertNotification db u t m ty rid now = .ok db') :
    db'.profiles = db.profiles ∧ db'.rides = db.rides ∧
    db'.ride_requests = db.ride_requests ∧ db'.ratings = db.ratings ∧
    db'.notifications = db.notifications ++ [⟨db.nextId, u, t, m, ty, rid, false, now⟩] ∧
    db'.nextId = db.nextId + 1 ∧ allowedNotificationTypes.contains ty = true := by
  unfold insertNotification at h
  split at h
  · injection h with h
    subst h
    exact ⟨rfl, rfl, rfl, rfl, rfl, rfl, by assumption⟩
  · simp at h

theorem updateBookingStatus_ok_shape {db : DB} {u qid : Nat} {st : String}
    {now : Nat} {db' : DB}
    (h : updateBookingStatus db u qid st now = .ok db') :
    db'.profiles = db.profiles ∧ db'.rides = db.rides ∧ db'.ratings = db.ratings ∧
    db'.ride_requests = db.ride_requests.map (fun p =>
      if p.id == qid then { p with status := st, updated_at := now } else p) := by
  unfold updateBookingStatus at h
  split at h
  · simp at h
  · split at h
    · split at h
      · split at h
        · split at h
          · have hs := insertNotification_ok_shape h
            exact ⟨hs.1, hs.2.1, hs.2.2.2.1, hs.2.2.1⟩
          · split at h
            · have hs := insertNotification_ok_shape h
              exact ⟨hs.1, hs.2.1, hs.2.2.2.1, hs.2.2.1⟩
            · injection h with h
              subst h
              exact ⟨rfl, rfl, rfl, rfl⟩
        · injection h with h
          subst h
          exact ⟨rfl, rfl, rfl, rfl⟩
      · simp at h
    · simp at h

theorem handleRequestRide_ok_shape {db : DB} {u rid : Nat} {n : Int}
    {now : Nat} {db' : DB}
    (h : handleRequestRide db u rid n now = .ok db') :
    ∃ ride, findRide db rid = some ride ∧ 0 < n ∧
      db.ride_requests.any
        (fun q => q.ride_id == rid && q.passenger_id == u) = false ∧
      db'.profiles = db.profiles ∧ db'.rides = db.rides ∧
      db'.ratings = db.ratings ∧
      db'.ride_requests = db.ride_requests ++
        [⟨db.nextId, rid, u, n, none, none, "pending", now, now⟩] ∧
      db'.notifications = db.notifications ++
        [⟨db.nextId + 1, ride.driver_id, "New Ride Request",
          "You have a new ride request from " ++ ride.origin ++ " to " ++
            ride.destination ++ " on " ++ ride.departure_date,
          "ride_request", some rid, false, now⟩] ∧
      db'.nextId = db.nextId + 2 := by
  unfold handleRequestRide at h
  split at h
  · simp at h
  · rename_i hn
    split at h
    · simp at h
    · rename_i hdup
      split at h
      · simp at h
      · rename_i ride hride
        simp only [handle_new_ride_request] at h
        split at h
        · rename_i r hr
          have hr' : findRide db rid = some r := hr
          rw [hride] at hr'
          injection hr' with hr'
          subst hr'
          have hs := insertNotification_ok_shape h
          refine ⟨ride, hride, by omega, by simpa using hdup, hs.1, hs.2.1,
            hs.2.2.2.1, hs.2.2.1, ?_, ?_⟩
          · simpa using hs.2.2.2.2.1
          · simpa using hs.2.2.2.2.2.1
        · simp at h

theorem updateRideStatus_ok_shape {db : DB} {u rid : Nat} {st : String}
    {now : Nat} {db' : DB}
    (h : updateRideStatus db u rid st now = .ok db') :
    db'.profiles = db.profiles ∧ db'.ride_requests = db.ride_requests ∧
    db'.ratings = db.ratings ∧ db'.notifications = db.notifications ∧
    db'.rides = db.rides.map (fun x =>
      if x.id == rid then { x with status := st, updated_at := now } else x) ∧
    ∃ r, findRide db rid = some r ∧ r.driver_id = u ∧
      rideStatuses.contains st = true := by
  unfold updateRideStatus at h
  split at h
  · simp at h
  · rename_i r hr
    split at h
    · rename_i hdrv
      split at h
      · injection h with h
        subst h
        exact ⟨rfl, rfl, rfl, rfl, rfl, r, hr, by simpa using hdrv, by assumption⟩
      · simp at h
    · simp at h

theorem markAsRead_ok_shape {db : DB} {u nid : Nat} {db' : DB}
    (h : markAsRead db u nid = .ok db') :
    db'.profiles = db.profiles ∧ db'.rides = db.rides ∧
    db'.ride_requests = db.ride_requests ∧ db'.ratings = db.ratings ∧
    db'.notifications = db.notifications.map (fun m =>
      if m.id == nid then { m with is_read := true } else m) ∧
    ∃ n, findNotification db nid = some n ∧ n.user_id = u := by
  unfold markAsRead at h
  split at h
  · simp at h
  · rename_i n hn
    split at h
    · rename_i hu
      injection h with h
      subst h
      exact ⟨rfl, rfl, rfl, rfl, rfl, n, hn, by simpa using hu⟩
    · simp at h

theorem submitRating_ok_shape {db : DB} {u rid ru s : Nat}
    {c : Option String} {now : Nat} {db' : DB}
    (h : submitRating db u rid ru s c now = .ok db') :
    db'.rides = db.rides ∧ db'.ride_requests = db.ride_requests ∧
    db'.notifications = db.notifications ∧
    db'.ratings = db.ratings ++ [⟨db.nextId, rid, u, ru, s, c, now⟩] ∧
    db' = update_user_rating
      { db with ratings := db.ratings ++ [⟨db.nextId, rid, u, ru, s, c, now⟩],
                nextId := db.nextId + 1 } ru := by
  unfold submitRating at h
  split at h
  · simp at h
  · split at h
    · simp at h
    · split at h
      · injection h with h
        subst h
        exact ⟨rfl, rfl, rfl, rfl, rfl⟩
      · simp at h

theorem createRide_ok_shape {db : DB} {u : Nat} {o d dt tm : String}
    {s : Int} {p : ℚ} {c : Option String} {now : Nat} {db' : DB}
    (h : createRide db u o d dt tm s p c now = .ok db') :
    db'.profiles = db.profiles ∧ db'.ride_requests = db.ride_requests ∧
    db'.ratings = db.ratings ∧ db'.notifications = db.notifications ∧
    db'.rides = db.rides ++
      [⟨db.nextId, u, o, d, dt, tm, s, p, c, "active", now, now⟩] := by
  unfold createRide at h
  split at h
  · simp at h
  · injection h with h
    subst h
    exact ⟨rfl, rfl, rfl, rfl, rfl⟩

theorem updateAvailabilityStatus_ok_shape {db : DB} {u : Nat} {st : String}
    {now : Nat} {db' : DB}
    (h : updateAvailabilityStatus db u st now = .ok db') :
    db'.rides = db.rides ∧ db'.ride_requests = db.ride_requests ∧
    db'.ratings = db.ratings ∧ db'.notifications = db.notifications := by
  unfold updateAvailabilityStatus at h
  split at h
  · injection h with h
    subst h
    exact ⟨rfl, rfl, rfl, rfl⟩
  · simp at h

theorem handleRequestRide_success {db : DB} {u rid : Nat} {n : Int}
    {now : Nat} {ride : Ride}
    (hride : findRide db rid = some ride) (hn : 0 < n)
    (hdup : db.ride_requests.any
      (fun q => q.ride_id == rid && q.passenger_id == u) = false) :
    handleRequestRide db u rid n now = .ok
      { db with
          ride_requests := db.ride_requests ++
            [⟨db.nextId, rid, u, n, none, none, "pending", now, now⟩],
          notifications := db.notifications ++
            [⟨db.nextId + 1, ride.driver_id, "New Ride Request",
              "You have a new ride request from " ++ ride.origin ++ " to " ++
                ride.destination ++ " on " ++ ride.departure_date,
              "ride_request", some rid, false, now⟩],
          nextId := db.nextId + 2 } := by
  unfold handleRequestRide
  split
  · omega
  · split
    · rename_i hc
      rw [hdup] at hc
      cases hc
    · split
      · rename_i hc
        rw [hride] at hc
        cases hc
      · rename_i r hr
        rw [hride] at hr
        injection hr with hr
        subst hr
        simp only [handle_new_ride_request]
        split
        · rename_i r2 hr2
          have hr2' : findRide db rid = some r2 := hr2
          rw [hride] at hr2'
          injection hr2' with hr2'
          subst hr2'
          unfold insertNotification
          rw [if_pos (by decide)]
        · rename_i hr2
          have hr2' : findRide db rid = none := hr2
          rw [hride] at hr2'
          cases hr2'

theorem updateBookingStatus_unauthorized {db : DB} {u qid : Nat}
    {st : String} {now : Nat} {q : RideRequest}
    (hq : findRequest db qid = some q) (hne : u ≠ q.passenger_id)
    (hnd : isDriverOf db u q.ride_id = false) :
    updateBookingStatus db u qid st now = .error .authorizationError := by
  unfold updateBookingStatus
  split
  · rename_i hq2
    rw [hq] at hq2
    cases hq2
  · rename_i q2 hq2
    rw [hq] at hq2
    injection hq2 with hq2
    subst hq2
    rw [if_neg (by simp [hne, hnd])]

theorem updateBookingStatus_noNotify_success {db : DB} {u qid : Nat}
    {st : String} {now : Nat} {q : RideRequest}
    (hq : findRequest db qid = some q)
    (hauth : u = q.passenger_id ∨ isDriverOf db u q.ride_id = true)
    (hst : requestStatuses.contains st = true)
    (hna : st ≠ "accepted") (hnr : st ≠ "rejected") :
    updateBookingStatus db u qid st now = .ok
      { db with ride_requests := db.ride_requests.map (fun p =>
          if p.id == qid then { p with status := st, updated_at := now }
          else p) } := by
  unfold updateBookingStatus
  split
  · rename_i hq2
    rw [hq] at hq2
    cases hq2
  · rename_i q2 hq2
    rw [hq] at hq2
    injection hq2 with hq2
    subst hq2
    rw [if_pos (show (u == q.passenger_id || isDriverOf db u q.ride_id) = true by
      rcases hauth with h | h
      · simp [h]
      · simp [h])]
    rw [if_pos hst]
    split
    · rw [if_neg (by simp [hna]), if_neg (by simp [hnr])]
    · rfl

theorem updateBookingStatus_accept_aborts {db : DB} {u qid : Nat}
    {now : Nat} {q : RideRequest}
    (hq : findRequest db qid = some q)
    (hauth : u = q.passenger_id ∨ isDriverOf db u q.ride_id = true)
    (hch : q.status ≠ "accepted") :
    updateBookingStatus db u qid "accepted" now = .error .checkViolation := by
  unfold updateBookingStatus
  split
  · rename_i hq2
    rw [hq] at hq2
    cases hq2
  · rename_i q2 hq2
    rw [hq] at hq2
    injection hq2 with hq2
    subst hq2
    rw [if_pos (show (u == q.passenger_id || isDriverOf db u q.ride_id) = true by
      rcases hauth with h | h
      · simp [h]
      · simp [h])]
    rw [if_pos (by decide : requestStatuses.contains "accepted" = true)]
    rw [if_pos (show ("accepted" != q.status) = true by
      simp [bne_iff_ne]
      exact fun h => hch h.symm)]
    rw [if_pos (by decide : ("accepted" == "accepted") = true)]
    unfold insertNotification
    rw [if_neg (by decide)]

theorem updateBookingStatus_reject_aborts {db : DB} {u qid : Nat}
    {now : Nat} {q : RideRequest}
    (hq : findRequest db qid = some q)
    (hauth : u = q.passenger_id ∨ isDriverOf db u q.ride_id = true)
    (hch : q.status ≠ "rejected") :
    updateBookingStatus db u qid "rejected" now = .error .checkViolation := by
  unfold updateBookingStatus
  split
  · rename_i hq2
    rw [hq] at hq2
    cases hq2
  · rename_i q2 hq2
    rw [hq] at hq2
    injection hq2 with hq2
    subst hq2
    rw [if_pos (show (u == q.passenger_id || isDriverOf db u q.ride_id) = true by
      rcases hauth with h | h
      · simp [h]
      · simp [h])]
    rw [if_pos (by decide : requestStatuses.contains "rejected" = true)]
    rw [if_pos (show ("rejected" != q.status) = true by
      simp [bne_iff_ne]
      exact fun h => hch h.symm)]
    rw [if_neg (by decide : ¬ ("rejected" == "accepted") = true)]
    rw [if_pos (by decide : ("rejected" == "rejected") = true)]
    unfold insertNotification
    rw [if_neg (by decide)]

theorem updateRideStatus_unauthorized {db : DB} {u rid : Nat} {st : String}
    {now : Nat} {r : Ride}
    (hr : findRide db rid = some r) (hne : r.driver_id ≠ u) :
    updateRideStatus db u rid st now = .error .authorizationError := by
  unfold updateRideStatus
  split
  · rename_i hr2
    rw [hr] at hr2
    cases hr2
  · rename_i r2 hr2
    rw [hr] at hr2
    injection hr2 with hr2
    subst hr2
    rw [if_neg (by simp [hne])]

theorem updateRideStatus_success {db : DB} {u rid : Nat} {st : String}
    {now : Nat} {r : Ride}
    (hr : findRide db rid = some r) (hd : r.driver_id = u)
    (hst : rideStatuses.contains st = true) :
    updateRideStatus db u rid st now = .ok
      { db with rides := db.rides.map (fun x =>
          if x.id == rid then { x with status := st, updated_at := now }
          else x) } := by
  unfold updateRideStatus
  split
  · rename_i hr2
    rw [hr] at hr2
    cases hr2
  · rename_i r2 hr2
    rw [hr] at hr2
    injection hr2 with hr2
    subst hr2
    rw [if_pos (by simp [hd]), if_pos hst]

theorem step_preserves_pairUnique {db db' : DB} (h : Step db db')
    (hp : pairUnique db) : pairUnique db' := by
  cases h with
  | createRequest u r n now db2 hok =>
      obtain ⟨ride, hfound, hn, hdup, hprof, hrides, hrat, hreq, hnotif, hnext⟩ :=
        handleRequestRide_ok_shape hok
      rw [pairUnique, hreq, List.pairwise_append]
      refine ⟨hp, by simp, ?_⟩
      intro a ha b hb
      simp only [List.mem_singleton] at hb
      subst hb
      have hna := List.any_eq_false.mp hdup a ha
      simp only [Bool.and_eq_true, beq_iff_eq, not_and] at hna
      by_cases hr1 : a.ride_id = r
      · exact Or.inr (hna hr1)
      · exact Or.inl hr1
  | bookingStatus u qid st now db2 hok =>
      have hs := updateBookingStatus_ok_shape hok
      rw [pairUnique, hs.2.2.2, List.pairwise_map]
      have fid : ∀ p : RideRequest,
          (if p.id == qid then { p with status := st, updated_at := now }
            else p).ride_id = p.ride_id := by
        intro p
        by_cases hc : (p.id == qid) = true <;> simp [hc]
      have fpass : ∀ p : RideRequest,
          (if p.id == qid then { p with status := st, updated_at := now }
            else p).passenger_id = p.passenger_id := by
        intro p
        by_cases hc : (p.id == qid) = true <;> simp [hc]
      refine List.Pairwise.imp ?_ hp
      intro a b hab
      rw [fid a, fid b, fpass a, fpass b]
      exact hab
  | rideStatus u r st now db2 hok =>
      have hs := updateRideStatus_ok_shape hok
      rw [pairUnique, hs.2.1]
      exact hp
  | markRead u n db2 hok =>
      have hs := markAsRead_ok_shape hok
      rw [pairUnique, hs.2.2.1]
      exact hp
  | rate u r ru s c now db2 hok =>
      have hs := submitRating_ok_shape hok
      rw [pairUnique, hs.2.1]
      exact hp
  | newRide u o d dt tm s p c now db2 hok =>
      have hs := createRide_ok_shape hok
      rw [pairUnique, hs.2.1]
      exact hp
  | presence u st now db2 hok =>
      have hs := updateAvailabilityStatus_ok_shape hok
      rw [pairUnique, hs.2.1]
      exact hp

theorem step_seats_extend {db db' : DB} (h : Step db db') :
    ∃ tail, seatsView db' = seatsView db ++ tail := by
  cases h with
  | createRequest u r n now db2 hok =>
      obtain ⟨ride, hfound, hn, hdup, hprof, hrides, hrat, hreq, hnotif, hnext⟩ :=
        handleRequestRide_ok_shape hok
      exact ⟨[], by rw [seatsView, hrides, List.append_nil]; rfl⟩
  | bookingStatus u qid st now db2 hok =>
      have hs := updateBookingStatus_ok_shape hok
      exact ⟨[], by rw [seatsView, hs.2.1, List.append_nil]; rfl⟩
  | rideStatus u r st now db2 hok =>
      have hs := updateRideStatus_ok_shape hok
      refine ⟨[], ?_⟩
      rw [List.append_nil, seatsView, seatsView, hs.2.2.2.2.1, List.map_map]
      refine List.map_congr_left ?_
      intro x hx
      by_cases hc : x.id = r <;> simp [hc]
  | markRead u n db2 hok =>
      have hs := markAsRead_ok_shape hok
      exact ⟨[], by rw [seatsView, hs.2.1, List.append_nil]; rfl⟩
  | rate u r ru s c now db2 hok =>
      have hs := submitRating_ok_shape hok
      exact ⟨[], by rw [seatsView, hs.1, List.append_nil]; rfl⟩
  | newRide u o d dt tm s p c now db2 hok =>
      have hs := createRide_ok_shape hok
      refine ⟨[(db.nextId, s)], ?_⟩
      rw [seatsView, hs.2.2.2.2, List.map_append]
      rfl
  | presence u st now db2 hok =>
      have hs := updateAvailabilityStatus_ok_shape hok
      exact ⟨[], by rw [seatsView, hs.1, List.append_nil]; rfl⟩

/-- C1: the claim (and the schema's own CHECK constraint, which allows only
`request_accepted` / `request_rejected`) says that accepting or rejecting a
pending booking request creates one notification of the corresponding type
for the requesting passenger in the same transaction.  The trigger
`handle_ride_request_status_update` instead inserts the type strings
`ride_request_accepted` / `ride_request_rejected`, which the CHECK constraint
on `notifications.type` rejects; the failed insert aborts the whole update,
so at the concrete state below even the listing's own driver (user 1) cannot
accept or reject the pending request 10, and no notification is ever
created. -/
theorem accept_violates_notification_type_check :
    handleRideRequest (sampleDB "active" "pending") 1 10 "accepted" 5 =
      .error DBError.checkViolation ∧
    handleRideRequest (sampleDB "active" "pending") 1 10 "rejected" 5 =
      .error DBError.checkViolation ∧
    allowedNotificationTypes.contains "ride_request_accepted" = false ∧
    allowedNotificationTypes.contains "ride_request_rejected" = false ∧
    allowedNotificationTypes.contains "request_accepted" = true ∧
    allowedNotificationTypes.contains "request_rejected" = true ∧
    (findRequest (sampleDB "active" "pending") 10).map RideRequest.status =
      some "pending" ∧
    isDriverOf (sampleDB "active" "pending") 1 1 = true :=
  ⟨rfl, rfl, rfl, rfl, rfl, rfl, rfl, rfl⟩

/-- C9: `markRead` fails with AuthorizationError whenever the acting user is
not the recipient (`user_id`) of the notification; the operation returns an
error and carries no new state, so the stored read flag is unchanged. -/
theorem markAsRead_requires_recipient (db : DB) (user nid : Nat)
    (n : Notification) (hfind : findNotification db nid = some n)
    (hne : n.user_id ≠ user) :
    markAsRead db user nid = .error DBError.authorizationError := by
  unfold markAsRead
  split
  · rename_i h2
    rw [hfind] at h2
    cases h2
  · rename_i n2 h2
    rw [hfind] at h2
    injection h2 with h2
    subst h2
    rw [if_neg (by simpa using hne)]

/-- Witness for C9 at a concrete state: user 1 is not the recipient of
notification 20 (whose recipient is user 2). -/
theorem markAsRead_requires_recipient_witness :
    markAsRead (sampleDB "active" "pending") 1 20 =
      .error DBError.authorizationError :=
  markAsRead_requires_recipient (sampleDB "active" "pending") 1 20
    ⟨20, 2, "t", "m", "ride_request", some 1, false, 0⟩ rfl (by decide)

/-- C10: no check prevents the listing's own driver from requesting a seat
on their own ride — only the UI button is disabled.  For any listing
(in particular an active one), a create call whose passenger is the driver
passes the insert-time authorization (the RLS policy only requires the
caller to be the named passenger) and persists a pending request. -/
theorem driver_can_request_own_ride (db : DB) (rid : Nat) (ride : Ride)
    (n : Int) (now : Nat)
    (hride : findRide db rid = some ride) (_hact : ride.status = "active")
    (hn : 0 < n)
    (hdup : db.ride_requests.any
      (fun q => q.ride_id == rid && q.passenger_id == ride.driver_id) = false) :
    ∃ db', handleRequestRide db ride.driver_id rid n now = .ok db' ∧
      (⟨db.nextId, rid, ride.driver_id, n, none, none, "pending", now, now⟩ :
        RideRequest) ∈ db'.ride_requests := by
  refine ⟨_, handleRequestRide_success hride hn hdup, ?_⟩
  simp

/-- Witness for C10: driver 1 requests a seat on their own active ride 1. -/
theorem driver_can_request_own_ride_witness :
    ∃ db', handleRequestRide (sampleDB "active" "pending") 1 1 1 7 = .ok db' ∧
      (⟨30, 1, 1, 1, none, none, "pending", 7, 7⟩ : RideRequest) ∈
        db'.ride_requests :=
  driver_can_request_own_ride (sampleDB "active" "pending") 1
    ⟨1, 1, "A", "B", "2025-01-01", "08:00", 2, 10, none, "active", 0, 0⟩ 1 7
    rfl rfl (by decide) rfl

/-- C4 counterexample: the requesting passenger (user 2) acting on their own
pending request does NOT fail with AuthorizationError — the update policy
`Passengers can update their own requests` admits the attempt, which then
fails only because of the notification-type check violation that hits every
caller. -/
theorem passenger_can_attempt_accept :
    updateBookingStatus (sampleDB "active" "pending") 2 10 "accepted" 5 =
      .error DBError.checkViolation ∧
    updateBookingStatus (sampleDB "active" "pending") 2 10 "accepted" 5 ≠
      .error DBError.authorizationError ∧
    (findRequest (sampleDB "active" "pending") 10).map
      RideRequest.passenger_id = some 2 :=
  ⟨rfl, fun h => DBError.noConfusion (Except.error.inj h), rfl⟩

/-- C4 (amended): a caller who is neither the listing's driver nor the
requesting passenger fails with AuthorizationError; the requesting passenger
is authorized by the update policies just like the driver, and for every
authorized caller — driver included — the pending → accepted transition
fails with the notification-type check violation (not AuthorizationError),
leaving the request unchanged. -/
theorem updateBookingStatus_accept_auth (db : DB) (u qid now : Nat)
    (q : RideRequest) (hq : findRequest db qid = some q)
    (hpend : q.status = "pending") :
    (u ≠ q.passenger_id → isDriverOf db u q.ride_id = false →
      updateBookingStatus db u qid "accepted" now =
        .error DBError.authorizationError) ∧
    (u = q.passenger_id ∨ isDriverOf db u q.ride_id = true →
      updateBookingStatus db u qid "accepted" now =
        .error DBError.checkViolation) := by
  constructor
  · intro h1 h2
    exact updateBookingStatus_unauthorized hq h1 h2
  · intro h
    exact updateBookingStatus_accept_aborts hq h (by rw [hpend]; decide)

/-- Witness for C4: outsider 3 gets AuthorizationError; driver 1 (an
authorized caller) gets the check violation. -/
theorem updateBookingStatus_accept_auth_witness :
    updateBookingStatus (sampleDB "active" "pending") 3 10 "accepted" 5 =
      .error DBError.authorizationError ∧
    updateBookingStatus (sampleDB "active" "pending") 1 10 "accepted" 5 =
      .error DBError.checkViolation :=
  ⟨(updateBookingStatus_accept_auth (sampleDB "active" "pending") 3 10 5
      ⟨10, 1, 2, 1, none, none, "pending", 0, 0⟩ rfl rfl).1 (by decide) rfl,
   (updateBookingStatus_accept_auth (sampleDB "active" "pending") 1 10 5
      ⟨10, 1, 2, 1, none, none, "pending", 0, 0⟩ rfl rfl).2 (Or.inr rfl)⟩

/-- C5 counterexample: request 10 is in the terminal status `cancelled`, yet
passenger 2 moving it back to `pending` succeeds and changes the status. -/
theorem cancelled_request_reopened :
    (findRequest (sampleDB "active" "cancelled") 10).map RideRequest.status =
      some "cancelled" ∧
    updateBookingStatus (sampleDB "active" "cancelled") 2 10 "pending" 5 =
      .ok reopenedDB ∧
    (findRequest reopenedDB 10).map RideRequest.status = some "pending" :=
  ⟨rfl, rfl, rfl⟩

/-- C5 (amended): terminal statuses are not enforced.  The status update
path has no state-machine guard: for a cancelled (terminal) request, an
update to `pending` by any authorized caller succeeds regardless of the
previous status and moves the request out of its terminal state.  (Only
updates targeting `accepted` or `rejected` fail, for every caller, because
of the notification-type check violation — not because the state is
terminal.) -/
theorem terminal_status_not_enforced (db : DB) (u qid now : Nat)
    (q : RideRequest) (hq : findRequest db qid = some q)
    (_hterm : q.status = "cancelled")
    (hauth : u = q.passenger_id ∨ isDriverOf db u q.ride_id = true) :
    updateBookingStatus db u qid "pending" now = .ok
      { db with ride_requests := db.ride_requests.map (fun p =>
          if p.id == qid then { p with status := "pending", updated_at := now }
          else p) } ∧
    { q with status := "pending", updated_at := now } ∈
      db.ride_requests.map (fun p =>
        if p.id == qid then { p with status := "pending", updated_at := now }
        else p) := by
  constructor
  · exact updateBookingStatus_noNotify_success hq hauth (by decide)
      (by decide) (by decide)
  · have hqmem : q ∈ db.ride_requests := List.mem_of_find?_eq_some hq
    have hqid : (q.id == qid) = true := by simpa using List.find?_some hq
    have hmem := List.mem_map_of_mem
      (f := fun p => if p.id == qid then
        { p with status := "pending", updated_at := now } else p) hqmem
    simpa [hqid] using hmem

/-- Witness for C5: the cancelled request 10 is moved back to `pending` by
its passenger, and its updated copy is in the store afterwards. -/
theorem terminal_status_not_enforced_witness :
    updateBookingStatus (sampleDB "active" "cancelled") 2 10 "pending" 5 = .ok
      { sampleDB "active" "cancelled" with
          ride_requests := (sampleDB "active" "cancelled").ride_requests.map
            (fun p => if p.id == 10 then
              { p with status := "pending", updated_at := 5 } else p) } ∧
    (⟨10, 1, 2, 1, none, none, "pending", 0, 5⟩ : RideRequest) ∈
      (sampleDB "active" "cancelled").ride_requests.map
        (fun p => if p.id == 10 then
          { p with status := "pending", updated_at := 5 } else p) :=
  terminal_status_not_enforced (sampleDB "active" "cancelled") 2 10 5
    ⟨10, 1, 2, 1, none, none, "cancelled", 0, 0⟩ rfl rfl (Or.inl rfl)

/-- C8 counterexample: ride 1 is already `completed` (terminal), yet its
driver setting it back to `active` succeeds (the listing is reopened); no
ConflictError is raised. -/
theorem completed_ride_reopened :
    (findRide (sampleDB "completed" "pending") 1).map Ride.status =
      some "completed" ∧
    updateRideStatus (sampleDB "completed" "pending") 1 1 "active" 5 =
      .ok reopenRideDB ∧
    (findRide reopenRideDB 1).map Ride.status = some "active" ∧
    updateRideStatus (sampleDB "completed" "pending") 1 1 "active" 5 ≠
      .error DBError.conflictError :=
  ⟨rfl, rfl, rfl, fun h => Except.noConfusion h⟩

/-- C8 (amended): `updateRideStatus` enforces ownership only.  A non-owner
fails with AuthorizationError and the listing is unchanged; the owning
driver may set any status value allowed by the CHECK constraint at any time,
regardless of the current status — including re-transitioning or reopening a
completed or cancelled listing — and no ConflictError exists on this path. -/
theorem updateRideStatus_owner_only (db : DB) (u rid : Nat) (st : String)
    (now : Nat) (r : Ride) (hr : findRide db rid = some r) :
    (r.driver_id ≠ u →
      updateRideStatus db u rid st now = .error DBError.authorizationError) ∧
    (r.driver_id = u → rideStatuses.contains st = true →
      updateRideStatus db u rid st now = .ok
        { db with rides := db.rides.map (fun x =>
            if x.id == rid then { x with status := st, updated_at := now }
            else x) }) :=
  ⟨fun h => updateRideStatus_unauthorized hr h,
   fun h1 h2 => updateRideStatus_success hr h1 h2⟩

/-- Witness for C8: non-owner 2 is rejected; owner 1 reopens the completed
ride 1. -/
theorem updateRideStatus_owner_only_witness :
    updateRideStatus (sampleDB "completed" "pending") 2 1 "active" 5 =
      .error DBError.authorizationError ∧
    updateRideStatus (sampleDB "completed" "pending") 1 1 "active" 5 = .ok
      { sampleDB "completed" "pending" with
          rides := (sampleDB "completed" "pending").rides.map
            (fun x => if x.id == 1 then
              { x with status := "active", updated_at := 5 } else x) } :=
  ⟨(updateRideStatus_owner_only (sampleDB "completed" "pending") 2 1 "active" 5
      ⟨1, 1, "A", "B", "2025-01-01", "08:00", 2, 10, none, "completed", 0, 0⟩
      rfl).1 (by decide),
   (updateRideStatus_owner_only (sampleDB "completed" "pending") 1 1 "active" 5
      ⟨1, 1, "A", "B", "2025-01-01", "08:00", 2, 10, none, "completed", 0, 0⟩
      rfl).2 rfl (by decide)⟩

/-- C2 counterexample: the referenced listing is `cancelled` (not active)
and has only 2 available seats, yet a request for 5 seats succeeds instead
of failing with ConflictError — no listing-status or capacity check exists
on the creation path. -/
theorem handleRequestRide_no_capacity_check :
    (findRide (sampleDB "cancelled" "pending") 1).map Ride.status =
      some "cancelled" ∧
    (findRide (sampleDB "cancelled" "pending") 1).map Ride.available_seats =
      some 2 ∧
    (handleRequestRide (sampleDB "cancelled" "pending") 3 1 5 7).isOk = true ∧
    handleRequestRide (sampleDB "cancelled" "pending") 3 1 5 7 ≠
      .error DBError.conflictError :=
  ⟨rfl, rfl, rfl, fun h => Except.noConfusion h⟩

/-- C2 (amended): `createBookingRequest` fails with ValidationError when the
seat count is not positive, with ConflictError when a request for the same
(ride, passenger) pair already exists, and with NotFoundError when the ride
does not exist; otherwise it succeeds — with no check of the listing's
status or available seats — persisting the request with status `pending` and
creating exactly one notification of type `ride_request` addressed to the
listing's driver. -/
theorem handleRequestRide_spec (db : DB) (u rid : Nat) (n : Int) (now : Nat) :
    (n ≤ 0 → handleRequestRide db u rid n now = .error DBError.validationError) ∧
    (0 < n →
      db.ride_requests.any
        (fun q => q.ride_id == rid && q.passenger_id == u) = true →
      handleRequestRide db u rid n now = .error DBError.conflictError) ∧
    (0 < n →
      db.ride_requests.any
        (fun q => q.ride_id == rid && q.passenger_id == u) = false →
      findRide db rid = none →
      handleRequestRide db u rid n now = .error DBError.notFoundError) ∧
    (∀ ride, 0 < n →
      db.ride_requests.any
        (fun q => q.ride_id == rid && q.passenger_id == u) = false →
      findRide db rid = some ride →
      handleRequestRide db u rid n now = .ok
        { db with
            ride_requests := db.ride_requests ++
              [⟨db.nextId, rid, u, n, none, none, "pending", now, now⟩],
            notifications := db.notifications ++
              [⟨db.nextId + 1, ride.driver_id, "New Ride Request",
                "You have a new ride request from " ++ ride.origin ++ " to " ++
                  ride.destination ++ " on " ++ ride.departure_date,
                "ride_request", some rid, false, now⟩],
            nextId := db.nextId + 2 }) := by
  refine ⟨?_, ?_, ?_, ?_⟩
  · intro h
    unfold handleRequestRide
    rw [if_pos h]
  · intro h1 h2
    unfold handleRequestRide
    rw [if_neg (by omega), if_pos h2]
  · intro h1 h2 h3
    unfold handleRequestRide
    rw [if_neg (by omega), if_neg (by simp [h2]), h3]
  · intro ride h1 h2 h3
    exact handleRequestRide_success h3 h1 h2

/-- Witness for C2: a non-positive seat count yields ValidationError, and a
duplicate (ride 1, passenger 2) pair yields ConflictError. -/
theorem handleRequestRide_spec_witness :
    handleRequestRide (sampleDB "active" "pending") 2 1 0 7 =
      .error DBError.validationError ∧
    handleRequestRide (sampleDB "active" "pending") 2 1 3 7 =
      .error DBError.conflictError :=
  ⟨(handleRequestRide_spec (sampleDB "active" "pending") 2 1 0 7).1 (by decide),
   (handleRequestRide_spec (sampleDB "active" "pending") 2 1 3 7).2.1
     (by decide) rfl⟩

/-- C3: at most one booking request per (ride, passenger) pair in every
reachable state — the UNIQUE constraint on `(ride_id, passenger_id)` is
checked in the same insert that stores the row, so of two create calls for
the same pair the second fails with ConflictError instead of storing a
duplicate. -/
theorem booking_pair_uniqueness :
    (∀ db, Reachable db → pairUnique db) ∧
    (∀ db u rid n now db', handleRequestRide db u rid n now = .ok db' →
      ∀ (m : Int) (later : Nat), 0 < m →
        handleRequestRide db' u rid m later = .error DBError.conflictError) := by
  constructor
  · intro db h
    induction h with
    | refl => exact List.Pairwise.nil
    | tail _ hstep ih => exact step_preserves_pairUnique hstep ih
  · intro db u rid n now db' hok m later hm
    obtain ⟨ride, hfound, hn, hdup, hprof, hrides, hrat, hreq, hnotif, hnext⟩ :=
      handleRequestRide_ok_shape hok
    have hany : db'.ride_requests.any
        (fun q => q.ride_id == rid && q.passenger_id == u) = true := by
      rw [hreq, List.any_append]
      simp
    unfold handleRequestRide
    rw [if_neg (by omega), if_pos hany]

/-- Witness for C3: the empty initial store satisfies the invariant, and
after user 3 books ride 1 a second booking attempt by user 3 on ride 1
fails with ConflictError. -/
theorem booking_pair_uniqueness_witness :
    pairUnique initDB ∧
    handleRequestRide requestedDB 3 1 1 8 = .error DBError.conflictError :=
  ⟨booking_pair_uniqueness.1 initDB Relation.ReflTransGen.refl,
   booking_pair_uniqueness.2 (sampleDB "active" "pending") 3 1 1 7 requestedDB
     rfl 1 8 (by decide)⟩

/-- C6: no write operation of the system ever shrinks or alters the stored
seat inventory: every step only extends the (listing id, available_seats)
view with newly created listings, and a booking-status update — in
particular an accept — leaves every listing record entirely unchanged and
changes at most the target request's `status` and `updated_at` fields. -/
theorem accept_preserves_listing_seats :
    (∀ db db', Step db db' → ∃ tail, seatsView db' = seatsView db ++ tail) ∧
    (∀ db u qid st now db',
      updateBookingStatus db u qid st now = .ok db' →
      db'.rides = db.rides ∧
      db'.ride_requests = db.ride_requests.map (fun p =>
        if p.id == qid then { p with status := st, updated_at := now }
        else p)) :=
  ⟨fun _ _ h => step_seats_extend h,
   fun _ _ _ _ _ _ h =>
     ⟨(updateBookingStatus_ok_shape h).2.1,
      (updateBookingStatus_ok_shape h).2.2.2⟩⟩

/-- Witness for C6: a concrete step (marking a notification read) preserves
the seat view, and a concrete successful booking-status update leaves the
rides table untouched. -/
theorem accept_preserves_listing_seats_witness :
    (∃ tail, seatsView markReadDB =
      seatsView (sampleDB "active" "pending") ++ tail) ∧
    (reopenedDB.rides = (sampleDB "active" "cancelled").rides ∧
     reopenedDB.ride_requests =
       (sampleDB "active" "cancelled").ride_requests.map (fun p =>
         if p.id == 10 then { p with status := "pending", updated_at := 5 }
         else p)) :=
  ⟨accept_preserves_listing_seats.1 (sampleDB "active" "pending") markReadDB
     (Step.markRead (sampleDB "active" "pending") 2 20 markReadDB rfl),
   accept_preserves_listing_seats.2 (sampleDB "active" "cancelled") 2 10
     "pending" 5 reopenedDB rfl⟩

/-- C7 counterexample: the aggregate is stored in a `DECIMAL(3,2)` column,
so it is the average rounded to two decimal places, not the exact average:
after ratings 5, 5 and 4 for user 50, the exact average is 14/3 but the
stored value is 4.67. -/
theorem aggregate_rounding_counterexample :
    (submitRating ratingDBr2 4 1 50 4 none 3).isOk = true ∧
    ratingDBr3.profiles.map (fun p => p.total_rating) = [467 / 100] ∧
    (((ratingsFor ratingDBr3 50).map (fun t => (t.rating : ℚ))).sum /
      ((ratingsFor ratingDBr3 50).length : ℚ)) = 14 / 3 ∧
    (467 / 100 : ℚ) ≠ 14 / 3 := by
  refine ⟨rfl, ?_, ?_, by norm_num⟩
  · norm_num [ratingDBr3, ratingDBr2, ratingDB1, ratingDB, submitRating,
      update_user_rating, avgRating, ratingsFor, round2, canRate, findRide,
      initDB, Except.toOption, Option.getD]
  · norm_num [ratingDBr3, ratingDBr2, ratingDB1, ratingDB, submitRating,
      update_user_rating, avgRating, ratingsFor, round2, canRate, findRide,
      initDB, Except.toOption, Option.getD]

/-- C7 (amended): after every successful rating insertion the rated user's
profile aggregate is recomputed over the full rating set for that user: the
stored count is the exact number of those ratings and the stored average is
their mean rounded to two decimal places (the `DECIMAL(3,2)` storage), not
an incremental patch; in the 5, 4, 3 scenario the stored aggregate is
exactly {4.00, 3}. -/
theorem submitRating_recomputes_aggregate (db : DB) (u rid ru s : Nat)
    (c : Option String) (now : Nat) (db' : DB)
    (h : submitRating db u rid ru s c now = .ok db') :
    db'.ratings = db.ratings ++ [⟨db.nextId, rid, u, ru, s, c, now⟩] ∧
    db'.profiles = db.profiles.map (fun p =>
      if p.user_id == ru then
        { p with
            total_rating := round2
              ((((ratingsFor db' ru).map (fun t => (t.rating : ℚ))).sum) /
                ((ratingsFor db' ru).length : ℚ)),
            rating_count := (ratingsFor db' ru).length }
      else p) := by
  have hs := submitRating_ok_shape h
  refine ⟨hs.2.2.2.1, ?_⟩
  have hdbeq := hs.2.2.2.2
  have hrf : ratingsFor db' ru = ratingsFor
      { db with ratings := db.ratings ++ [⟨db.nextId, rid, u, ru, s, c, now⟩],
                nextId := db.nextId + 1 } ru := by
    rw [hdbeq]
    exact rfl
  have hlen : (ratingsFor
      { db with ratings := db.ratings ++ [⟨db.nextId, rid, u, ru, s, c, now⟩],
                nextId := db.nextId + 1 } ru).length ≠ 0 := by
    simp [ratingsFor, List.filter_append]
  rw [hrf, hdbeq]
  unfold update_user_rating
  have havg : avgRating
      { db with ratings := db.ratings ++ [⟨db.nextId, rid, u, ru, s, c, now⟩],
                nextId := db.nextId + 1 } ru = round2
      ((((ratingsFor
          { db with ratings := db.ratings ++ [⟨db.nextId, rid, u, ru, s, c, now⟩],
                    nextId := db.nextId + 1 } ru).map
            (fun t => (t.rating : ℚ))).sum) /
        ((ratingsFor
          { db with ratings := db.ratings ++ [⟨db.nextId, rid, u, ru, s, c, now⟩],
                    nextId := db.nextId + 1 } ru).length : ℚ)) := by
    unfold avgRating
    rw [if_neg hlen]
  rw [havg]

/-- Witness for C7: the third rating of the 5, 4, 3 scenario is inserted
through the theorem, and the resulting aggregate for user 50 is exactly
average 4 with count 3. -/
theorem submitRating_recomputes_aggregate_witness :
    (ratingDB3.ratings = ratingDB2.ratings ++ [⟨102, 1, 4, 50, 3, none, 3⟩] ∧
     ratingDB3.profiles = ratingDB2.profiles.map (fun p =>
       if p.user_id == 50 then
         { p with
             total_rating := round2
               ((((ratingsFor ratingDB3 50).map (fun t => (t.rating : ℚ))).sum) /
                 ((ratingsFor ratingDB3 50).length : ℚ)),
             rating_count := (ratingsFor ratingDB3 50).length }
       else p)) ∧
    ratingDB3.profiles.map (fun p => (p.total_rating, p.rating_count)) =
      [(4, 3)] :=
  ⟨submitRating_recomputes_aggregate ratingDB2 4 1 50 3 none 3 ratingDB3 rfl,
   by norm_num [ratingDB3, ratingDB2, ratingDB1, ratingDB, submitRating,
     update_user_rating, avgRating, ratingsFor, round2, canRate, findRide,
     initDB, Except.toOption, Option.getD]⟩
